import Mathlib

/-!
Verification of the GPU droplet deployment scripts
(`deploy_gpu_droplet.py` and `mcp_server.py`).

The Python code is shallowly embedded: JSON documents become an inductive
`Json` type, dictionaries become association lists, the network becomes an
explicit function argument (the sequence of responses the remote service
would return), and raised exceptions become `Except` values carrying the
the message string of the exception.  Real time in the polling loop is modelled
discretely: `time.time() - start_time` advances only at `time.sleep(5)`,
so the elapsed time before the k-th poll is `5 * k` time units, matching
the wording of the spec: "fixed interval (5 time units)" and "budget
(default 300 time units)".
-/

namespace GPUDroplet

/-- JSON values, as produced by `response.json()` / consumed by `json.dumps`.
Python dictionaries are modelled as association lists in insertion order
(keys unique in all documents the code builds). -/
inductive Json where
  | null : Json
  | bool (b : Bool) : Json
  | num (n : Int) : Json
  | str (s : String) : Json
  | arr (elems : List Json) : Json
  | obj (fields : List (String × Json)) : Json
deriving Inhabited

/-- Python `d[key]`-style lookup on a dict: first binding for the key. -/
def dictGet (fields : List (String × Json)) (key : String) : Option Json :=
  (fields.find? (fun p => p.1 == key)).map (fun p => p.2)

/-- Python `d.get(key, dflt)`. -/
def dictGetD (fields : List (String × Json)) (key : String) (dflt : Json) : Json :=
  (dictGet fields key).getD dflt

/-- Python `==` between an arbitrary value and a string literal:
true only when the value is that very string. -/
def jsonEqStr (j : Json) (s : String) : Bool :=
  match j with
  | Json.str t => t == s
  | _ => false

/-- A droplet document as returned by `get_droplet`
(`response.get("droplet", {})`): a JSON dictionary. -/
abbrev DropletDoc := List (String × Json)

/-- Models `droplet.get("status", "")` in `wait_for_droplet`. -/
def dropletStatus (d : DropletDoc) : Json :=
  dictGetD d ("status") (Json.str (""))

/-- Message of the exception raised when the droplet reports status
`"error"`: `f"Droplet {droplet_id} entered error state"`. -/
def errorStateMsg (droplet_id : Int) : String :=
  s!"Droplet {droplet_id} entered error state"

/-- Message of the `TimeoutError`:
`f"Droplet {droplet_id} did not become active within {timeout} seconds"`. -/
def timeoutMsg (droplet_id : Int) (timeout : Int) : String :=
  s!"Droplet {droplet_id} did not become active within {timeout} seconds"

/-- Outcome of `wait_for_droplet`: normal return of the droplet document,
the "entered error state" exception, or the `TimeoutError`. -/
inductive WaitResult where
  | active (droplet : DropletDoc) : WaitResult
  | errorState (msg : String) : WaitResult
  | timedOut (msg : String) : WaitResult

/-- The `while time.time() - start_time < timeout` loop of
`wait_for_droplet`, entered with `k` sleeps already performed (elapsed
time `5 * k`).  `get k` is the droplet document the k-th
`self.get_droplet(droplet_id)` call returns.  The second component counts
how many polls this invocation performs. -/
def wfdLoop (get : Nat → DropletDoc) (droplet_id timeout : Int) (k : Nat) :
    WaitResult × Nat :=
  if h : 5 * (k : Int) < timeout then
    let droplet := get k
    if jsonEqStr (dropletStatus droplet) ("active") then
      (WaitResult.active droplet, 1)
    else if jsonEqStr (dropletStatus droplet) ("error") then
      (WaitResult.errorState (errorStateMsg droplet_id), 1)
    else
      let r := wfdLoop get droplet_id timeout (k + 1)
      (r.1, r.2 + 1)
  else
    (WaitResult.timedOut (timeoutMsg droplet_id timeout), 0)
termination_by (timeout - 5 * (k : Int)).toNat
decreasing_by
  push_cast
  omega

/-- Models `DigitalOceanAPI.wait_for_droplet(droplet_id, timeout=300)`, with the
polled droplet documents supplied as the sequence `get`.  Returns the
outcome together with the number of polls performed. -/
def wait_for_droplet (get : Nat → DropletDoc) (droplet_id : Int)
    (timeout : Int := 300) : WaitResult × Nat :=
  wfdLoop get droplet_id timeout 0

theorem wfdLoop_timeout_step {get : Nat → DropletDoc} {droplet_id timeout : Int}
    {k : Nat} (h : ¬ 5 * (k : Int) < timeout) :
    wfdLoop get droplet_id timeout k =
      (WaitResult.timedOut (timeoutMsg droplet_id timeout), 0) := by
  rw [wfdLoop]
  simp [h]

theorem wfdLoop_active_step {get : Nat → DropletDoc} {droplet_id timeout : Int}
    {k : Nat} (h : 5 * (k : Int) < timeout)
    (ha : jsonEqStr (dropletStatus (get k)) ("active") = true) :
    wfdLoop get droplet_id timeout k = (WaitResult.active (get k), 1) := by
  rw [wfdLoop]
  simp [h, ha]

theorem wfdLoop_error_step {get : Nat → DropletDoc} {droplet_id timeout : Int}
    {k : Nat} (h : 5 * (k : Int) < timeout)
    (hna : jsonEqStr (dropletStatus (get k)) ("active") = false)
    (he : jsonEqStr (dropletStatus (get k)) ("error") = true) :
    wfdLoop get droplet_id timeout k =
      (WaitResult.errorState (errorStateMsg droplet_id), 1) := by
  rw [wfdLoop]
  simp [h, hna, he]

theorem wfdLoop_pending_step {get : Nat → DropletDoc} {droplet_id timeout : Int}
    {k : Nat} (h : 5 * (k : Int) < timeout)
    (hna : jsonEqStr (dropletStatus (get k)) ("active") = false)
    (hne : jsonEqStr (dropletStatus (get k)) ("error") = false) :
    wfdLoop get droplet_id timeout k =
      ((wfdLoop get droplet_id timeout (k + 1)).1,
       (wfdLoop get droplet_id timeout (k + 1)).2 + 1) := by
  rw [wfdLoop]
  simp [h, hna, hne]

theorem wfdLoop_first_active (get : Nat → DropletDoc) (droplet_id timeout : Int)
    (i : Nat) :
    ∀ k : Nat, 5 * ((k + i : Nat) : Int) < timeout →
    (∀ j, k ≤ j → j < k + i →
        jsonEqStr (dropletStatus (get j)) ("active") = false ∧
        jsonEqStr (dropletStatus (get j)) ("error") = false) →
    jsonEqStr (dropletStatus (get (k + i))) ("active") = true →
    wfdLoop get droplet_id timeout k =
      (WaitResult.active (get (k + i)), i + 1) := by
  induction i with
  | zero =>
    intro k hb _ ha
    simpa using wfdLoop_active_step (by push_cast at hb ⊢; omega)
      (by simpa using ha)
  | succ n ih =>
    intro k hb hpend ha
    have hb0 : 5 * (k : Int) < timeout := by push_cast at hb ⊢; omega
    have hp := hpend k (Nat.le_refl k) (by omega)
    rw [wfdLoop_pending_step hb0 hp.1 hp.2]
    have harith : k + 1 + n = k + (n + 1) := by omega
    have := ih (k + 1)
      (by rw [harith]; exact hb)
      (by intro j hj1 hj2; exact hpend j (by omega) (by omega))
      (by rw [harith]; exact ha)
    rw [this, harith]

/-- C1: poll-to-active success path.  If the first poll whose status
equals "active" is poll `i` (no earlier poll reports "active" or
"error"), and that poll happens within the elapsed-time budget, then
`wait_for_droplet` returns the droplet document of that poll normally after
exactly `i + 1` polls — no further polling, no error. -/
theorem waitForDroplet_first_active (get : Nat → DropletDoc)
    (droplet_id timeout : Int) (i : Nat)
    (hbudget : 5 * (i : Int) < timeout)
    (hpend : ∀ j, j < i →
        jsonEqStr (dropletStatus (get j)) ("active") = false ∧
        jsonEqStr (dropletStatus (get j)) ("error") = false)
    (hact : jsonEqStr (dropletStatus (get i)) ("active") = true) :
    wait_for_droplet get droplet_id timeout =
      (WaitResult.active (get i), i + 1) := by
  have := wfdLoop_first_active get droplet_id timeout i 0
    (by simpa using hbudget)
    (by intro j _ hj2; exact hpend j (by omega))
    (by simpa using hact)
  simpa [wait_for_droplet] using this

/-- The simulated status sequence `["new", "new", "active"]` (constantly
"active" afterwards, not that it matters). -/
def simActiveSeq : Nat → DropletDoc := fun k =>
  [(("status"), Json.str (if k < 2 then ("new") else ("active")))]

theorem waitForDroplet_first_active_witness :
    wait_for_droplet simActiveSeq 7 300 =
      (WaitResult.active (simActiveSeq 2), 3) :=
  waitForDroplet_first_active simActiveSeq 7 300 2 (by decide)
    (by decide) (by decide)

theorem wfdLoop_first_error (get : Nat → DropletDoc) (droplet_id timeout : Int)
    (i : Nat) :
    ∀ k : Nat, 5 * ((k + i : Nat) : Int) < timeout →
    (∀ j, k ≤ j → j < k + i →
        jsonEqStr (dropletStatus (get j)) ("active") = false ∧
        jsonEqStr (dropletStatus (get j)) ("error") = false) →
    jsonEqStr (dropletStatus (get (k + i))) ("active") = false →
    jsonEqStr (dropletStatus (get (k + i))) ("error") = true →
    wfdLoop get droplet_id timeout k =
      (WaitResult.errorState (errorStateMsg droplet_id), i + 1) := by
  induction i with
  | zero =>
    intro k hb _ hna he
    simpa using wfdLoop_error_step (by push_cast at hb ⊢; omega)
      (by simpa using hna) (by simpa using he)
  | succ n ih =>
    intro k hb hpend hna he
    have hb0 : 5 * (k : Int) < timeout := by push_cast at hb ⊢; omega
    have hp := hpend k (Nat.le_refl k) (by omega)
    rw [wfdLoop_pending_step hb0 hp.1 hp.2]
    have harith : k + 1 + n = k + (n + 1) := by omega
    have := ih (k + 1)
      (by rw [harith]; exact hb)
      (by intro j hj1 hj2; exact hpend j (by omega) (by omega))
      (by rw [harith]; exact hna)
      (by rw [harith]; exact he)
    rw [this]

/-- C2: poll-to-active failure-state path.  If the first poll whose
status is terminal is poll `i` and it reports "error" (earlier polls
report neither "active" nor "error"), and that poll happens within the
budget, then `wait_for_droplet` raises the "entered error state"
exception after exactly `i + 1` polls: the error surfaces immediately,
with no further polling and no retry. -/
theorem waitForDroplet_first_error (get : Nat → DropletDoc)
    (droplet_id timeout : Int) (i : Nat)
    (hbudget : 5 * (i : Int) < timeout)
    (hpend : ∀ j, j < i →
        jsonEqStr (dropletStatus (get j)) ("active") = false ∧
        jsonEqStr (dropletStatus (get j)) ("error") = false)
    (hna : jsonEqStr (dropletStatus (get i)) ("active") = false)
    (herr : jsonEqStr (dropletStatus (get i)) ("error") = true) :
    wait_for_droplet get droplet_id timeout =
      (WaitResult.errorState (errorStateMsg droplet_id), i + 1) := by
  have := wfdLoop_first_error get droplet_id timeout i 0
    (by simpa using hbudget)
    (by intro j _ hj2; exact hpend j (by omega))
    (by simpa using hna)
    (by simpa using herr)
  simpa [wait_for_droplet] using this

/-- The simulated status sequence `["new", "error"]` (constantly "error"
afterwards, not that the loop ever looks). -/
def simErrorSeq : Nat → DropletDoc := fun k =>
  [(("status"), Json.str (if k < 1 then ("new") else ("error")))]

theorem waitForDroplet_first_error_witness :
    wait_for_droplet simErrorSeq 7 300 =
      (WaitResult.errorState (errorStateMsg 7), 2) :=
  waitForDroplet_first_error simErrorSeq 7 300 1 (by decide)
    (by decide) (by decide) (by decide)

theorem wfdLoop_all_pending (get : Nat → DropletDoc) (droplet_id timeout : Int)
    (hpend : ∀ j : Nat, 5 * (j : Int) < timeout →
        jsonEqStr (dropletStatus (get j)) ("active") = false ∧
        jsonEqStr (dropletStatus (get j)) ("error") = false) :
    ∀ n k : Nat, (timeout - 5 * (k : Int)).toNat ≤ n →
      (wfdLoop get droplet_id timeout k).1 =
        WaitResult.timedOut (timeoutMsg droplet_id timeout) := by
  intro n
  induction n with
  | zero =>
    intro k hk
    have hb : ¬ 5 * (k : Int) < timeout := by omega
    rw [wfdLoop_timeout_step hb]
  | succ n ih =>
    intro k hk
    by_cases hb : 5 * (k : Int) < timeout
    · obtain ⟨h1, h2⟩ := hpend k hb
      rw [wfdLoop_pending_step hb h1 h2]
      exact ih (k + 1) (by push_cast; omega)
    · rw [wfdLoop_timeout_step hb]

/-- C3: poll-to-active timeout path.  If no poll performed within the
elapsed-time budget reports status "active" or "error", then
`wait_for_droplet` raises the `TimeoutError` with the timeout-specific
message, and that outcome is distinct from every failure-state
("entered error state") outcome. -/
theorem waitForDroplet_timeout_distinct (get : Nat → DropletDoc)
    (droplet_id timeout : Int)
    (hpend : ∀ j : Nat, 5 * (j : Int) < timeout →
        jsonEqStr (dropletStatus (get j)) ("active") = false ∧
        jsonEqStr (dropletStatus (get j)) ("error") = false) :
    (wait_for_droplet get droplet_id timeout).1 =
      WaitResult.timedOut (timeoutMsg droplet_id timeout) ∧
    ∀ m : String,
      WaitResult.timedOut (timeoutMsg droplet_id timeout) ≠
        WaitResult.errorState m := by
  constructor
  · exact wfdLoop_all_pending get droplet_id timeout hpend
      (timeout - 0).toNat 0 (by push_cast; omega)
  · intro m h
    exact WaitResult.noConfusion h

/-- A droplet that forever reports status "new". -/
def constNewSeq : Nat → DropletDoc := fun _ =>
  [(("status"), Json.str ("new"))]

theorem waitForDroplet_timeout_distinct_witness :
    (wait_for_droplet constNewSeq 7 300).1 =
      WaitResult.timedOut (timeoutMsg 7 300) ∧
    ∀ m : String,
      WaitResult.timedOut (timeoutMsg 7 300) ≠ WaitResult.errorState m :=
  waitForDroplet_timeout_distinct constNewSeq 7 300
    (fun _ _ => by constructor <;> rfl)

theorem wfdLoop_polls_within_budget (get : Nat → DropletDoc)
    (droplet_id timeout : Int) :
    ∀ n k : Nat, (timeout - 5 * (k : Int)).toNat ≤ n →
      ∀ j, j < (wfdLoop get droplet_id timeout k).2 →
        5 * ((k + j : Nat) : Int) < timeout := by
  intro n
  induction n with
  | zero =>
    intro k hk j hj
    have hb : ¬ 5 * (k : Int) < timeout := by omega
    rw [wfdLoop_timeout_step hb] at hj
    exact absurd hj (by simp)
  | succ n ih =>
    intro k hk j hj
    by_cases hb : 5 * (k : Int) < timeout
    · cases ha : jsonEqStr (dropletStatus (get k)) ("active") with
      | true =>
        rw [wfdLoop_active_step hb ha] at hj
        have : j = 0 := by simpa using Nat.lt_one_iff.mp hj
        subst this
        push_cast
        omega
      | false =>
        cases he : jsonEqStr (dropletStatus (get k)) ("error") with
        | true =>
          rw [wfdLoop_error_step hb ha he] at hj
          have : j = 0 := by simpa using Nat.lt_one_iff.mp hj
          subst this
          push_cast
          omega
        | false =>
          rw [wfdLoop_pending_step hb ha he] at hj
          cases j with
          | zero => push_cast; omega
          | succ j =>
            have := ih (k + 1) (by push_cast; omega) j
              (by omega)
            push_cast at this ⊢
            omega
    · rw [wfdLoop_timeout_step hb] at hj
      exact absurd hj (by simp)

theorem wfdLoop_congr_within_budget (get get2 : Nat → DropletDoc)
    (droplet_id timeout : Int)
    (hagree : ∀ j : Nat, 5 * (j : Int) < timeout → get j = get2 j) :
    ∀ n k : Nat, (timeout - 5 * (k : Int)).toNat ≤ n →
      wfdLoop get droplet_id timeout k = wfdLoop get2 droplet_id timeout k := by
  intro n
  induction n with
  | zero =>
    intro k hk
    have hb : ¬ 5 * (k : Int) < timeout := by omega
    rw [wfdLoop_timeout_step hb, wfdLoop_timeout_step hb]
  | succ n ih =>
    intro k hk
    by_cases hb : 5 * (k : Int) < timeout
    · have hg : get k = get2 k := hagree k hb
      cases ha : jsonEqStr (dropletStatus (get k)) ("active") with
      | true =>
        rw [wfdLoop_active_step hb ha,
          wfdLoop_active_step hb (by rw [← hg]; exact ha), hg]
      | false =>
        cases he : jsonEqStr (dropletStatus (get k)) ("error") with
        | true =>
          rw [wfdLoop_error_step hb ha he,
            wfdLoop_error_step hb (by rw [← hg]; exact ha)
              (by rw [← hg]; exact he)]
        | false =>
          rw [wfdLoop_pending_step hb ha he,
            wfdLoop_pending_step hb (by rw [← hg]; exact ha)
              (by rw [← hg]; exact he),
            ih (k + 1) (by push_cast; omega)]
    · rw [wfdLoop_timeout_step hb, wfdLoop_timeout_step hb]

/-- C10: the elapsed-budget check precedes every poll.  (1) With a
non-positive timeout, `wait_for_droplet` raises the `TimeoutError`
without a single droplet fetch (zero polls).  (2) Every poll `j` that is
performed satisfies `5 * j < timeout`: no remote status is read once the
budget has expired.  (3) Consequently the outcome depends only on the
responses within the budget — a droplet that would have reported
"active" on the first out-of-budget poll still results in a timeout. -/
theorem waitForDroplet_budget_precedes_poll (get get2 : Nat → DropletDoc)
    (droplet_id timeout : Int) :
    (timeout ≤ 0 →
      wait_for_droplet get droplet_id timeout =
        (WaitResult.timedOut (timeoutMsg droplet_id timeout), 0)) ∧
    (∀ j, j < (wait_for_droplet get droplet_id timeout).2 →
      5 * (j : Int) < timeout) ∧
    ((∀ j : Nat, 5 * (j : Int) < timeout → get j = get2 j) →
      wait_for_droplet get droplet_id timeout =
        wait_for_droplet get2 droplet_id timeout) := by
  refine ⟨?_, ?_, ?_⟩
  · intro hle
    exact wfdLoop_timeout_step (by push_cast; omega)
  · intro j hj
    have := wfdLoop_polls_within_budget get droplet_id timeout
      (timeout - 0).toNat 0 (by push_cast; omega) j hj
    simpa using this
  · intro hagree
    exact wfdLoop_congr_within_budget get get2 droplet_id timeout hagree
      (timeout - 0).toNat 0 (by push_cast; omega)

/-- A droplet that reports "active" already on the very first poll. -/
def constActiveSeq : Nat → DropletDoc := fun _ =>
  [(("status"), Json.str ("active"))]

theorem waitForDroplet_budget_precedes_poll_witness :
    wait_for_droplet constActiveSeq 7 0 =
      (WaitResult.timedOut (timeoutMsg 7 0), 0) :=
  (waitForDroplet_budget_precedes_poll constActiveSeq constActiveSeq 7 0).1
    (by decide)

mutual

/-- Python `repr` of a JSON-shaped value (external builtin; modelled with
the Python conventions: `None`/`True`/`False`, quoted strings, bracketed
containers; string escaping is not reproduced).  Only scalar values are
exercised by the claims. -/
def pyRepr : Json → String
  | Json.null => "None"
  | Json.bool true => "True"
  | Json.bool false => "False"
  | Json.num n => toString n
  | Json.str s => "\x27" ++ s ++ "\x27"
  | Json.arr xs => "[" ++ pyReprSep xs ++ "]"
  | Json.obj fs => "\x7b" ++ pyReprFieldsSep fs ++ "\x7d"

/-- Comma-separated `repr`s of array elements. -/
def pyReprSep : List Json → String
  | [] => ""
  | [x] => pyRepr x
  | x :: xs => pyRepr x ++ ", " ++ pyReprSep xs

/-- Comma-separated `repr`s of dict entries. -/
def pyReprFieldsSep : List (String × Json) → String
  | [] => ""
  | [(k, v)] => "\x27" ++ k ++ "\x27: " ++ pyRepr v
  | (k, v) :: fs => "\x27" ++ k ++ "\x27: " ++ pyRepr v ++ ", " ++ pyReprFieldsSep fs

end

/-- Python `str()` as used by f-string interpolation (external builtin):
a string interpolates as itself, other values as their `repr`. -/
def pyStr : Json → String
  | Json.str s => s
  | j => pyRepr j

/-- Python truthiness (`if x:`) of a JSON-shaped value. -/
def pyTruthy : Json → Bool
  | Json.null => false
  | Json.bool b => b
  | Json.num n => n != 0
  | Json.str s => !s.isEmpty
  | Json.arr xs => !xs.isEmpty
  | Json.obj fs => !fs.isEmpty

/-- Python `str.upper()` (external builtin), modelled character-wise on
the ASCII method names the code passes. -/
def pyUpper (s : String) : String := String.mk (s.data.map Char.toUpper)

/-- Python `str.lower()` (external builtin), modelled character-wise
(faithful on the ASCII text the claims exercise). -/
def pyLower (s : String) : String := String.mk (s.data.map Char.toLower)

/-- Whether `pat` is a prefix of the character list. -/
def prefixChars : List Char → List Char → Bool
  | [], _ => true
  | _ :: _, [] => false
  | p :: ps, c :: cs => p == c && prefixChars ps cs

/-- Whether `pat` occurs as a contiguous sublist. -/
def hasSubChars (pat : List Char) : List Char → Bool
  | [] => pat.isEmpty
  | c :: cs => prefixChars pat (c :: cs) || hasSubChars pat cs

/-- Models `pat in s` for Python strings (equivalently `s.find(pat) != -1`):
substring containment. -/
def strContains (s pat : String) : Bool := hasSubChars pat.data s.data

/-- Models `s in xs` for a Python list: membership by `==` (a string compares
equal only to the same string). -/
def listHasStr (xs : List Json) (s : String) : Bool :=
  xs.any (fun x => jsonEqStr x s)

/-- A Python exception, by type and message, as raised by the embedded
code.  `PyError.str` is the `str(e)` the dispatch boundary interpolates
(`str` of a `KeyError` is the `repr` of the missing key). -/
inductive PyError where
  | valueError (msg : String) : PyError
  | keyError (key : String) : PyError
  | exception (msg : String) : PyError
  | typeError (msg : String) : PyError
  | attributeError (msg : String) : PyError
  | timeoutError (msg : String) : PyError
  | jsonDecodeError (msg : String) : PyError

def PyError.str : PyError → String
  | PyError.valueError m => m
  | PyError.keyError k => "\x27" ++ k ++ "\x27"
  | PyError.exception m => m
  | PyError.typeError m => m
  | PyError.attributeError m => m
  | PyError.timeoutError m => m
  | PyError.jsonDecodeError m => m

/-- An HTTP response as seen through the `requests` library (external
collaborator): the status code, the raw body text (`e.response.text`),
the result of parsing the body as JSON (`e.response.json()`; `none` when
the body is not valid JSON), and the status line `str(e)` that
the `HTTPError` raised by `raise_for_status` formats. -/
structure HttpResponse where
  statusCode : Nat
  text : String
  json? : Option Json
  errorLine : String

/-- The `except requests.exceptions.HTTPError` handler of
`_make_request`.  `error_msg` starts as `f"API Error: {e}"` (the status
line); the handler then tries `error_data = e.response.json()` and, when
the membership test of "message" in it and the indexing both succeed,
uses the interpolated message value; any exception inside the `try`
(a failed JSON parse, or the `TypeError` from `in`/indexing on a
non-dict) falls to the bare `except:` which uses
`f"API Error: {e.response.text}"`. -/
def makeRequestErrorText (resp : HttpResponse) : String :=
  match resp.json? with
  | none => "API Error: " ++ resp.text
  | some (Json.obj fs) =>
    match dictGet fs ("message") with
    | some v => "API Error: " ++ pyStr v
    | none => "API Error: " ++ resp.errorLine
  | some (Json.str s) =>
    if strContains s ("message") then "API Error: " ++ resp.text
    else "API Error: " ++ resp.errorLine
  | some (Json.arr xs) =>
    if listHasStr xs ("message") then "API Error: " ++ resp.text
    else "API Error: " ++ resp.errorLine
  | some _ => "API Error: " ++ resp.text

/-- The network: what response the remote service returns for a given
(upper-cased) method, endpoint, and JSON body. -/
def Transport := String → String → Option Json → HttpResponse

/-- Models `DigitalOceanAPI._make_request` (the `mcp_server.py` variant, which
supports GET/POST/DELETE/PUT; the `deploy_gpu_droplet.py` variant is
identical except that it lacks the PUT branch, which no claim touches).
A body is sent only with POST/PUT (`requests.get`/`delete` take no
`json=` argument here).  A non-success status (`raise_for_status` raises
for 4xx/5xx) becomes a generic `Exception` carrying the normalized
message; an unsupported method is a `ValueError` raised before any
request; a success body that is not valid JSON surfaces the JSON
decode error of the JSON library. -/
def make_request (t : Transport) (method endpoint : String)
    (data : Option Json) : Except PyError Json :=
  let m := pyUpper method
  if m == "GET" || m == "POST" || m == "DELETE" || m == "PUT" then
    let resp := t m endpoint (if m == "POST" || m == "PUT" then data else none)
    if 400 ≤ resp.statusCode ∧ resp.statusCode < 600 then
      Except.error (PyError.exception (makeRequestErrorText resp))
    else
      match resp.json? with
      | some j => Except.ok j
      | none => Except.error (PyError.jsonDecodeError
          ("Expecting value: line 1 column 1 (char 0)"))
  else
    Except.error (PyError.valueError ("Unsupported HTTP method: " ++ method))

/-- A 404 response whose JSON body is an object with a "message" field
holding "nope". -/
def respMsgNope : HttpResponse :=
  { statusCode := 404
    text := "\x7b\x22message\x22: \x22nope\x22\x7d"
    json? := some (Json.obj [(("message"), Json.str ("nope"))])
    errorLine := "404 Client Error: Not Found for url: https://api.digitalocean.com/v2/droplets" }

/-- C4 counterexample: on a non-success response whose JSON body carries
the "message" field "nope", the raised error text is
"API Error: nope", which is not equal to the bare field value "nope" —
the code prepends the fixed prefix "API Error: " that the wording
"equals exactly" of the claim excludes.  (The same prefix appears on the raw-body
fallback.) -/
theorem makeRequest_error_text_not_bare_message :
    make_request (fun _ _ _ => respMsgNope) ("GET") ("/droplets") none =
      Except.error (PyError.exception ("API Error: nope")) ∧
    ("API Error: nope" : String) ≠ ("nope" : String) := by
  constructor
  · rfl
  · decide

/-- C4 (amended): for every non-success HTTP response (status 4xx/5xx),
the client raises a single generic error whose text equals
`"API Error: "` followed by the value of the "message" field when the
response body parses as a JSON object containing a string "message"
field, and `"API Error: "` followed by the raw response body text when
the body is not valid JSON. -/
theorem makeRequest_error_normalization (t : Transport) (endpoint : String)
    (resp : HttpResponse) (hresp : t ("GET") endpoint none = resp)
    (h4 : 400 ≤ resp.statusCode) (h6 : resp.statusCode < 600) :
    (∀ fs msg, resp.json? = some (Json.obj fs) →
        dictGet fs ("message") = some (Json.str msg) →
        make_request t ("GET") endpoint none =
          Except.error (PyError.exception ("API Error: " ++ msg))) ∧
    (resp.json? = none →
        make_request t ("GET") endpoint none =
          Except.error (PyError.exception ("API Error: " ++ resp.text))) := by
  have hup : pyUpper ("GET") = "GET" := by decide
  constructor
  · intro fs msg h1 h2
    simp [make_request, hup, hresp, h4, h6, makeRequestErrorText, h1, h2, pyStr]
  · intro h1
    simp [make_request, hup, hresp, h4, h6, makeRequestErrorText, h1]

theorem makeRequest_error_normalization_witness :
    make_request (fun _ _ _ => respMsgNope) ("GET") ("/x") none =
      Except.error (PyError.exception ("API Error: " ++ "nope")) :=
  (makeRequest_error_normalization (fun _ _ _ => respMsgNope) ("/x")
      respMsgNope rfl (by decide) (by decide)).1
    [(("message"), Json.str ("nope"))] ("nope") rfl rfl

/-- The `droplet_data` dictionary assembled by
`DigitalOceanAPI.create_droplet` (identical construction in both
files; `deploy_gpu_droplet.py` names the image parameter `snapshot_id`
but stores it under the same "image" key).  `Json.null` models a Python
`None` argument (the declared default for the three optional inputs);
the boolean flags default as in the Python signature. -/
def create_droplet_body (name region size image : Json)
    (ssh_keys : Json := Json.null) (tags : Json := Json.null)
    (user_data : Json := Json.null)
    (monitoring : Json := Json.bool false) (ipv6 : Json := Json.bool false)
    (private_networking : Json := Json.bool true) : List (String × Json) :=
  [(("name"), name), (("region"), region), (("size"), size),
   (("image"), image),
   (("monitoring"), monitoring), (("ipv6"), ipv6),
   (("private_networking"), private_networking)] ++
  (if pyTruthy ssh_keys then [(("ssh_keys"), ssh_keys)] else []) ++
  (if pyTruthy tags then [(("tags"), tags)] else []) ++
  (if pyTruthy user_data then [(("user_data"), user_data)] else [])

/-- C5: create-droplet request body shape.  The keys ssh_keys, tags and
user_data appear in the outgoing body exactly when the corresponding
input is truthy — with the supplied value verbatim — and are omitted
entirely otherwise; a `None` (absent) input, an empty list and an empty
string are exactly the non-truthy cases.  The keys monitoring, ipv6 and
private_networking are always present with the flag values, and
leaving the flags at their declared defaults sends false, false, true. -/
theorem create_droplet_body_shape (name region size image sk tg ud : Json)
    (monitoring ipv6 pn : Bool) :
    (dictGet (create_droplet_body name region size image sk tg ud
        (Json.bool monitoring) (Json.bool ipv6) (Json.bool pn)) ("ssh_keys") =
      if pyTruthy sk then some sk else none) ∧
    (dictGet (create_droplet_body name region size image sk tg ud
        (Json.bool monitoring) (Json.bool ipv6) (Json.bool pn)) ("tags") =
      if pyTruthy tg then some tg else none) ∧
    (dictGet (create_droplet_body name region size image sk tg ud
        (Json.bool monitoring) (Json.bool ipv6) (Json.bool pn)) ("user_data") =
      if pyTruthy ud then some ud else none) ∧
    (dictGet (create_droplet_body name region size image sk tg ud
        (Json.bool monitoring) (Json.bool ipv6) (Json.bool pn)) ("monitoring") =
      some (Json.bool monitoring)) ∧
    (dictGet (create_droplet_body name region size image sk tg ud
        (Json.bool monitoring) (Json.bool ipv6) (Json.bool pn)) ("ipv6") =
      some (Json.bool ipv6)) ∧
    (dictGet (create_droplet_body name region size image sk tg ud
        (Json.bool monitoring) (Json.bool ipv6) (Json.bool pn))
        ("private_networking") = some (Json.bool pn)) ∧
    (∀ l : List Json, pyTruthy (Json.arr l) = !l.isEmpty) ∧
    (∀ s : String, pyTruthy (Json.str s) = !s.isEmpty) ∧
    (pyTruthy Json.null = false) ∧
    (create_droplet_body name region size image sk tg ud =
      create_droplet_body name region size image sk tg ud
        (Json.bool false) (Json.bool false) (Json.bool true)) := by
  refine ⟨?_, ?_, ?_, ?_, ?_, ?_, fun l => rfl, fun s => rfl, rfl, rfl⟩ <;>
    cases hsk : pyTruthy sk <;> cases htg : pyTruthy tg <;>
      cases hud : pyTruthy ud <;>
      simp [create_droplet_body, dictGet, hsk, htg, hud, List.find?_append]

theorem pyBind_ok {α β : Type} (a : α) (f : α → Except PyError β) :
    (Except.ok a >>= f : Except PyError β) = f a := rfl

/-- Python `obj.get(key, dflt)`: the value (or default) on a dict, an
`AttributeError` on anything else (exact interpreter message not
reproduced). -/
def pyGetD (j : Json) (key : String) (dflt : Json) : Except PyError Json :=
  match j with
  | Json.obj fs => Except.ok (dictGetD fs key dflt)
  | _ => Except.error (PyError.attributeError ("get"))

/-- Models `DigitalOceanAPI.get_regions`. -/
def get_regions (t : Transport) : Except PyError Json := do
  let r ← make_request t ("GET") ("/regions") none
  pyGetD r ("regions") (Json.arr [])

/-- Models `DigitalOceanAPI.get_sizes` (`mcp_server.py`; the first half of
`get_gpu_sizes` in `deploy_gpu_droplet.py` is the same request and
unwrap). -/
def get_sizes (t : Transport) : Except PyError Json := do
  let r ← make_request t ("GET") ("/sizes") none
  pyGetD r ("sizes") (Json.arr [])

/-- One step of the GPU filter:
`size.get("description", "").lower().find("gpu") != -1`.  A size that is
not a dict, or whose description is present but not a string, raises
(`.get` / `.lower` is an `AttributeError`). -/
def gpuSizeCheck (size : Json) : Except PyError Bool := do
  let d ← pyGetD size ("description") (Json.str (""))
  match d with
  | Json.str s => Except.ok (strContains (pyLower s) ("gpu"))
  | _ => Except.error (PyError.attributeError ("lower"))

/-- The list comprehension
`[size for size in sizes if size.get("description", "").lower().find("gpu") != -1]`
(elements tested left to right, first exception propagating). -/
def gpuFilter : List Json → Except PyError (List Json)
  | [] => Except.ok []
  | size :: rest => do
    let b ← gpuSizeCheck size
    let r ← gpuFilter rest
    Except.ok (if b then size :: r else r)

/-- Models `DigitalOceanAPI.get_gpu_sizes`: fetch the sizes, then apply the
client-side GPU filter.  Iterating a non-list payload raises in Python;
the exact exception text is interpreter detail. -/
def get_gpu_sizes (t : Transport) : Except PyError Json := do
  let s ← get_sizes t
  match s with
  | Json.arr xs => (gpuFilter xs).map Json.arr
  | _ => Except.error (PyError.typeError ("not iterable"))

/-- The pure predicate the GPU filter computes on a well-formed size:
the description field (default "") contains "gpu" case-insensitively. -/
def hasGpuDesc (size : Json) : Bool :=
  match size with
  | Json.obj fs =>
    match dictGetD fs ("description") (Json.str ("")) with
    | Json.str s => strContains (pyLower s) ("gpu")
    | _ => false
  | _ => false

theorem gpuFilter_eq_filter (sizes : List Json)
    (hok : ∀ size ∈ sizes, ∃ fs, size = Json.obj fs ∧
        (dictGet fs ("description") = none ∨
         ∃ s, dictGet fs ("description") = some (Json.str s))) :
    gpuFilter sizes = Except.ok (sizes.filter hasGpuDesc) := by
  induction sizes with
  | nil => rfl
  | cons size rest ih =>
    obtain ⟨fs, rfl, hdesc⟩ := hok size (by simp)
    have hcheck : gpuSizeCheck (Json.obj fs) =
        Except.ok (hasGpuDesc (Json.obj fs)) := by
      rcases hdesc with h | ⟨s, h⟩ <;>
        simp [gpuSizeCheck, pyGetD, hasGpuDesc, dictGetD, h, pyBind_ok]
    have hrest := ih (fun x hx => hok x (by simp [hx]))
    simp [gpuFilter, hcheck, hrest, List.filter, pyBind_ok]
    cases hasGpuDesc (Json.obj fs) <;> simp [pyBind_ok]

/-- C8: GPU-size filtering.  For every list of sizes whose description
fields are strings (or absent), `get_gpu_sizes` returns exactly the
sizes whose description contains "gpu" case-insensitively anywhere, in
original order (`List.filter` keeps order). -/
theorem get_gpu_sizes_filter (t : Transport) (sizes : List Json)
    (hresp : get_sizes t = Except.ok (Json.arr sizes))
    (hok : ∀ size ∈ sizes, ∃ fs, size = Json.obj fs ∧
        (dictGet fs ("description") = none ∨
         ∃ s, dictGet fs ("description") = some (Json.str s))) :
    get_gpu_sizes t = Except.ok (Json.arr (sizes.filter hasGpuDesc)) := by
  unfold get_gpu_sizes
  rw [hresp]
  show Except.map Json.arr (gpuFilter sizes) = _
  rw [gpuFilter_eq_filter sizes hok]
  rfl

/-- The size list of the example in the claim: descriptions "Basic",
"GPU Accelerated", "gpu-optimized". -/
def exSizes : List Json :=
  [Json.obj [(("description"), Json.str ("Basic"))],
   Json.obj [(("description"), Json.str ("GPU Accelerated"))],
   Json.obj [(("description"), Json.str ("gpu-optimized"))]]

/-- A remote service whose /sizes payload is `exSizes`. -/
def exSizesTransport : Transport := fun _ _ _ =>
  { statusCode := 200
    text := ""
    json? := some (Json.obj [(("sizes"), Json.arr exSizes)])
    errorLine := "" }

theorem get_gpu_sizes_filter_witness :
    get_gpu_sizes exSizesTransport =
      Except.ok (Json.arr
        [Json.obj [(("description"), Json.str ("GPU Accelerated"))],
         Json.obj [(("description"), Json.str ("gpu-optimized"))]]) := by
  have h := get_gpu_sizes_filter exSizesTransport exSizes
    (by rfl)
    (by
      intro size hs
      simp only [exSizes, List.mem_cons, List.not_mem_nil, or_false] at hs
      rcases hs with rfl | rfl | rfl <;> exact ⟨_, rfl, Or.inr ⟨_, rfl⟩⟩)
  rw [h]
  rfl

/-- Python `obj.get(key)` with no default: `None` when the key is
missing, `AttributeError` on a non-dict. -/
def pyGet? (j : Json) (key : String) : Except PyError Json :=
  match j with
  | Json.obj fs => Except.ok (dictGetD fs key Json.null)
  | _ => Except.error (PyError.attributeError ("get"))

/-- Models `DigitalOceanAPI.get_images`. -/
def get_images (t : Transport) : Except PyError Json := do
  let r ← make_request t ("GET") ("/images") none
  pyGetD r ("images") (Json.arr [])

/-- Models `[img for img in images if img.get("type") == "snapshot"]`. -/
def snapshotFilter : List Json → Except PyError (List Json)
  | [] => Except.ok []
  | img :: rest => do
    let ty ← pyGet? img ("type")
    let r ← snapshotFilter rest
    Except.ok (if jsonEqStr ty ("snapshot") then img :: r else r)

/-- Models `DigitalOceanAPI.get_snapshots`: derive snapshots from the image
list client-side. -/
def get_snapshots (t : Transport) : Except PyError Json := do
  let imgs ← get_images t
  match imgs with
  | Json.arr xs => (snapshotFilter xs).map Json.arr
  | _ => Except.error (PyError.typeError ("not iterable"))

/-- Models `DigitalOceanAPI.get_snapshot(snapshot_id)` (the identifier is
interpolated into the path with `str()`). -/
def get_snapshot (t : Transport) (snapshot_id : Json) : Except PyError Json := do
  let r ← make_request t ("GET") ("/snapshots/" ++ pyStr snapshot_id) none
  pyGetD r ("snapshot") (Json.obj [])

/-- Models `DigitalOceanAPI.get_droplets`. -/
def get_droplets (t : Transport) : Except PyError Json := do
  let r ← make_request t ("GET") ("/droplets") none
  pyGetD r ("droplets") (Json.arr [])

/-- Models `DigitalOceanAPI.get_droplet(droplet_id)`. -/
def get_droplet (t : Transport) (droplet_id : Json) : Except PyError Json := do
  let r ← make_request t ("GET") ("/droplets/" ++ pyStr droplet_id) none
  pyGetD r ("droplet") (Json.obj [])

/-- Models `DigitalOceanAPI.create_droplet`: POST the assembled body, unwrap
the "droplet" envelope key. -/
def create_droplet (t : Transport) (name region size image : Json)
    (ssh_keys tags user_data monitoring ipv6 private_networking : Json) :
    Except PyError Json := do
  let r ← make_request t ("POST") ("/droplets")
      (some (Json.obj (create_droplet_body name region size image ssh_keys
        tags user_data monitoring ipv6 private_networking)))
  pyGetD r ("droplet") (Json.obj [])

/-- Models `DigitalOceanAPI.delete_droplet`: the response is returned without
unwrapping. -/
def delete_droplet (t : Transport) (droplet_id : Json) : Except PyError Json :=
  make_request t ("DELETE") ("/droplets/" ++ pyStr droplet_id) none

/-- Models `DigitalOceanAPI.get_ssh_keys`. -/
def get_ssh_keys (t : Transport) : Except PyError Json := do
  let r ← make_request t ("GET") ("/account/keys") none
  pyGetD r ("ssh_keys") (Json.arr [])

/-- Models `DigitalOceanAPI.get_account_info`. -/
def get_account_info (t : Transport) : Except PyError Json := do
  let r ← make_request t ("GET") ("/account") none
  pyGetD r ("account") (Json.obj [])

/-- An `mcp.types.TextContent` payload. -/
structure TextContent where
  type : String
  text : String
deriving DecidableEq

/-- Models `TextContent(type="text", text=s)`, the only content shape
`call_tool` builds. -/
def mkText (s : String) : TextContent := { type := "text", text := s }

mutual

/-- Models the external `json.dumps(x, indent=2)` collaborator as JSON
text (`null`/`true`/`false`, quoted strings, bracketed containers).
Indentation, spacing and string escaping are not reproduced; no claim
depends on the exact rendering. -/
def jsonDumps : Json → String
  | Json.null => "null"
  | Json.bool true => "true"
  | Json.bool false => "false"
  | Json.num n => toString n
  | Json.str s => "\x22" ++ s ++ "\x22"
  | Json.arr xs => "[" ++ jsonDumpsSep xs ++ "]"
  | Json.obj fs => "\x7b" ++ jsonDumpsFields fs ++ "\x7d"

/-- Comma-separated dumps of array elements. -/
def jsonDumpsSep : List Json → String
  | [] => ""
  | [x] => jsonDumps x
  | x :: xs => jsonDumps x ++ ", " ++ jsonDumpsSep xs

/-- Comma-separated dumps of dict entries. -/
def jsonDumpsFields : List (String × Json) → String
  | [] => ""
  | [(k, v)] => "\x22" ++ k ++ "\x22: " ++ jsonDumps v
  | (k, v) :: fs => "\x22" ++ k ++ "\x22: " ++ jsonDumps v ++ ", " ++ jsonDumpsFields fs

end

/-- The names of the ten tools the static `list_tools` catalog
advertises, in catalog order. -/
def toolNames : List String :=
  [("do_list_regions"), ("do_list_sizes"), ("do_list_snapshots"),
   ("do_get_snapshot"), ("do_list_droplets"), ("do_get_droplet"),
   ("do_create_droplet"), ("do_delete_droplet"), ("do_list_ssh_keys"),
   ("do_get_account_info")]

/-- The lazily created module-level API client; its only state is the
credential it was built from. -/
structure Client where
  api_token : String
deriving DecidableEq

/-- Models `get_api_client()`: return the cached client, or create one from the
`DIGITALOCEAN_API_TOKEN` environment variable; a missing or empty
(falsy) value raises a `ValueError`.  Returns the client together with
the new value of the module-level `api_client` global. -/
def get_api_client (env : String → Option String) (st : Option Client) :
    Except PyError (Client × Option Client) :=
  match st with
  | some c => Except.ok (c, some c)
  | none =>
    match env ("DIGITALOCEAN_API_TOKEN") with
    | none => Except.error (PyError.valueError
        ("DIGITALOCEAN_API_TOKEN environment variable is not set"))
    | some tok =>
      if tok.isEmpty then
        Except.error (PyError.valueError
          ("DIGITALOCEAN_API_TOKEN environment variable is not set"))
      else
        Except.ok (⟨tok⟩, some ⟨tok⟩)

/-- The tool-call arguments dict. -/
abbrev Arguments := List (String × Json)

/-- Models `arguments.get(key, dflt)`. -/
def argGetD (args : Arguments) (key : String) (dflt : Json) : Json :=
  dictGetD args key dflt

/-- Models `arguments.get(key)`: `None` when absent. -/
def argGet? (args : Arguments) (key : String) : Json :=
  dictGetD args key Json.null

/-- Models `arguments[key]`: a `KeyError` when absent (its `str` is the
`repr` of the key). -/
def argIndex (args : Arguments) (key : String) : Except PyError Json :=
  match dictGet args key with
  | some v => Except.ok v
  | none => Except.error (PyError.keyError key)

/-- The body of the second `try` of `call_tool`: the if/elif dispatch
chain over the operation name, each known branch invoking the client
method and serializing its result; the final `else` returns the
"Unknown tool" text.  Any raised exception surfaces as the `Except`
error. -/
def call_tool_body (t : Transport) (name : String) (args : Arguments) :
    Except PyError (List TextContent) :=
  if name == "do_list_regions" then do
    let regions ← get_regions t
    Except.ok [mkText (jsonDumps regions)]
  else if name == "do_list_sizes" then do
    let gpu_only := argGetD args ("gpu_only") (Json.bool false)
    if pyTruthy gpu_only then do
      let sizes ← get_gpu_sizes t
      Except.ok [mkText (jsonDumps sizes)]
    else do
      let sizes ← get_sizes t
      Except.ok [mkText (jsonDumps sizes)]
  else if name == "do_list_snapshots" then do
    let snapshots ← get_snapshots t
    Except.ok [mkText (jsonDumps snapshots)]
  else if name == "do_get_snapshot" then do
    let snapshot ← get_snapshot t (argGet? args ("snapshot_id"))
    Except.ok [mkText (jsonDumps snapshot)]
  else if name == "do_list_droplets" then do
    let droplets ← get_droplets t
    Except.ok [mkText (jsonDumps droplets)]
  else if name == "do_get_droplet" then do
    let droplet ← get_droplet t (argGet? args ("droplet_id"))
    Except.ok [mkText (jsonDumps droplet)]
  else if name == "do_create_droplet" then do
    let nm ← argIndex args ("name")
    let rg ← argIndex args ("region")
    let sz ← argIndex args ("size")
    let im ← argIndex args ("image")
    let droplet ← create_droplet t nm rg sz im
      (argGet? args ("ssh_keys")) (argGet? args ("tags"))
      (argGet? args ("user_data"))
      (argGetD args ("monitoring") (Json.bool false))
      (argGetD args ("ipv6") (Json.bool false))
      (argGetD args ("private_networking") (Json.bool true))
    Except.ok [mkText (jsonDumps droplet)]
  else if name == "do_delete_droplet" then do
    let result ← delete_droplet t (argGet? args ("droplet_id"))
    Except.ok [mkText (jsonDumps result)]
  else if name == "do_list_ssh_keys" then do
    let ssh_keys ← get_ssh_keys t
    Except.ok [mkText (jsonDumps ssh_keys)]
  else if name == "do_get_account_info" then do
    let account ← get_account_info t
    Except.ok [mkText (jsonDumps account)]
  else
    Except.ok [mkText ("Unknown tool: " ++ name)]

/-- Models `call_tool(name, arguments)`: first `try` obtains the lazily created
client (a `ValueError` — the only exception `get_api_client` raises —
becomes an `Error:` text result); the second `try` runs the dispatch
chain, any exception becoming an `Error:` text result.  The second component of
the pair is the module-level `api_client` global after the
call (the network itself is the `Transport`; the client value only
carries the credential the transport presents). -/
def call_tool (t : Transport) (env : String → Option String)
    (st : Option Client) (name : String) (args : Arguments) :
    List TextContent × Option Client :=
  match get_api_client env st with
  | Except.error e => ([mkText ("Error: " ++ PyError.str e)], st)
  | Except.ok (_, st2) =>
    match call_tool_body t name args with
    | Except.ok res => (res, st2)
    | Except.error e => ([mkText ("Error: " ++ PyError.str e)], st2)

/-- C6 counterexample: with no cached client and no credential in the
environment, dispatching the unknown operation name "do_everything"
returns the credential error text — not a result stating the operation
is unknown — because `call_tool` runs `get_api_client()` before it ever
looks at the name. -/
theorem callTool_unknown_blocked_by_credential :
    (call_tool (fun _ _ _ => respMsgNope) (fun _ => none) none
        ("do_everything") []).1 =
      [mkText ("Error: DIGITALOCEAN_API_TOKEN environment variable is not set")] ∧
    mkText ("Error: DIGITALOCEAN_API_TOKEN environment variable is not set") ≠
      mkText ("Unknown tool: " ++ "do_everything") := by
  constructor
  · rfl
  · decide

/-- C6 (amended): provided the API client is available — already cached,
or creatable because the credential is present and non-empty — dispatch
of any operation name outside the catalog returns the normal successful
textual result "Unknown tool: <name>" and never raises; when instead the
credential is absent at lazy creation, the credential error text is
returned (still a normal textual result, not a raised error). -/
theorem callTool_unknown_tool (t : Transport) (env : String → Option String)
    (st : Option Client) (name : String) (args : Arguments)
    (hname : name ∉ toolNames)
    (hclient : (∃ c, st = some c) ∨
      (∃ tok, env ("DIGITALOCEAN_API_TOKEN") = some tok ∧ tok.isEmpty = false)) :
    ∃ st2, call_tool t env st name args =
      ([mkText ("Unknown tool: " ++ name)], st2) := by
  have hbody : call_tool_body t name args =
      Except.ok [mkText ("Unknown tool: " ++ name)] := by
    simp only [toolNames, List.mem_cons, List.not_mem_nil, or_false,
      not_or] at hname
    obtain ⟨h1, h2, h3, h4, h5, h6, h7, h8, h9, h10⟩ := hname
    simp [call_tool_body, h1, h2, h3, h4, h5, h6, h7, h8, h9, h10]
  cases st with
  | some c => exact ⟨some c, by simp [call_tool, get_api_client, hbody]⟩
  | none =>
    rcases hclient with ⟨c, hc⟩ | ⟨tok, henv, htok⟩
    · cases hc
    · exact ⟨some ⟨tok⟩, by
        simp [call_tool, get_api_client, henv, htok, hbody]⟩

theorem callTool_unknown_tool_witness :
    ∃ st2, call_tool (fun _ _ _ => respMsgNope) (fun _ => none)
        (some ⟨("tok")⟩) ("do_everything") [] =
      ([mkText ("Unknown tool: " ++ "do_everything")], st2) :=
  callTool_unknown_tool (fun _ _ _ => respMsgNope) (fun _ => none)
    (some ⟨("tok")⟩) ("do_everything") [] (by decide)
    (Or.inl ⟨⟨("tok")⟩, rfl⟩)

/-- C7: dispatch error containment.  (1) With no cached client and the
credential absent, any call returns the credential error as a textual
result and leaves the cached client unset, so the next request
re-attempts lazy creation.  (2) Every error the dispatch body raises —
whatever operation or failure — is converted at the boundary into the
textual result "Error: <str(e)>"; nothing propagates, and the cached
client survives for subsequent calls.  (3) In particular a known
operation missing its required argument ("do_create_droplet" with no
"name") yields the KeyError text as a result.  (4) After a
credential-absence failure, a request made once the credential exists
re-creates the client lazily and an unrelated operation succeeds. -/
theorem callTool_error_containment (t : Transport)
    (env env2 : String → Option String) (name : String) (args : Arguments)
    (c : Client) (tok : String) :
    (env ("DIGITALOCEAN_API_TOKEN") = none →
      call_tool t env none name args =
        ([mkText ("Error: DIGITALOCEAN_API_TOKEN environment variable is not set")],
         none)) ∧
    (∀ e, call_tool_body t name args = Except.error e →
      call_tool t env (some c) name args =
        ([mkText ("Error: " ++ PyError.str e)], some c)) ∧
    (call_tool t env (some c) ("do_create_droplet") [] =
      ([mkText ("Error: " ++ PyError.str (PyError.keyError ("name")))],
       some c)) ∧
    (env2 ("DIGITALOCEAN_API_TOKEN") = some tok → tok.isEmpty = false →
      ∀ regions, get_regions t = Except.ok regions →
        call_tool t env2 none ("do_list_regions") args =
          ([mkText (jsonDumps regions)], some ⟨tok⟩)) := by
  refine ⟨?_, ?_, ?_, ?_⟩
  · intro henv
    simp only [call_tool, get_api_client, henv]
    rfl
  · intro e he
    simp [call_tool, get_api_client, he]
  · rfl
  · intro henv htok regions hr
    simp [call_tool, get_api_client, henv, htok, call_tool_body, hr, pyBind_ok]

theorem callTool_error_containment_witness :
    call_tool (fun _ _ _ => respMsgNope) (fun _ => none) none
        ("do_list_droplets") [] =
      ([mkText ("Error: DIGITALOCEAN_API_TOKEN environment variable is not set")],
       none) :=
  (callTool_error_containment (fun _ _ _ => respMsgNope) (fun _ => none)
      (fun _ => none) ("do_list_droplets") [] ⟨("x")⟩ ("x")).1 rfl

/-- Models `os.getenv(name, dflt)`: the value of the variable, or the default when
the variable is unset (`none`). -/
def getenvD (env : String → Option String) (name dflt : String) : String :=
  (env name).getD dflt

/-- The `config` dictionary `main()` of `deploy_gpu_droplet.py` builds
from the environment. -/
structure DeployConfig where
  droplet_name : String
  region : String
  size : String
  snapshot_id : Option String
  ssh_keys : Option (List String)
  tags : Option (List String)
  monitoring : Bool
  ipv6 : Bool
  private_networking : Bool
  wait_for_active : Bool

/-- Models the configuration assembly of `main()`: boolean flags are
`os.getenv(NAME, default).lower() == "true"`; the comma lists are split
only when the variable is set and non-empty (`x.split(",") if x else
None`); `SNAPSHOT_ID` is taken as-is (validated later). -/
def deployConfig (env : String → Option String) : DeployConfig :=
  { droplet_name := getenvD env ("DROPLET_NAME") ("gpu-droplet")
    region := getenvD env ("DROPLET_REGION") ("nyc1")
    size := getenvD env ("DROPLET_SIZE") ("g-2vcpu-16gb")
    snapshot_id := env ("SNAPSHOT_ID")
    ssh_keys :=
      match env ("SSH_KEYS") with
      | some s => if s.isEmpty then none else some (s.splitOn (","))
      | none => none
    tags :=
      match env ("DROPLET_TAGS") with
      | some s => if s.isEmpty then none else some (s.splitOn (","))
      | none => none
    monitoring := pyLower (getenvD env ("MONITORING") ("false")) == "true"
    ipv6 := pyLower (getenvD env ("IPV6") ("false")) == "true"
    private_networking :=
      pyLower (getenvD env ("PRIVATE_NETWORKING") ("true")) == "true"
    wait_for_active :=
      pyLower (getenvD env ("WAIT_FOR_ACTIVE") ("true")) == "true" }

/-- C9 counterexample: with every environment variable unset, the parsed
monitoring and ipv6 flags are false — the claim asserts all of
monitoring, ipv6, private networking and wait-for-active default to
true, which fails on this input because the code supplies "false" as the
getenv default for MONITORING and IPV6. -/
theorem deployConfig_unset_not_all_true :
    (deployConfig (fun _ => none)).monitoring = false ∧
    (deployConfig (fun _ => none)).ipv6 = false ∧
    ¬ ((deployConfig (fun _ => none)).monitoring = true ∧
       (deployConfig (fun _ => none)).ipv6 = true ∧
       (deployConfig (fun _ => none)).private_networking = true ∧
       (deployConfig (fun _ => none)).wait_for_active = true) := by
  refine ⟨rfl, rfl, ?_⟩
  intro h
  exact absurd h.1 (by decide)

/-- C9 (amended): each of the four boolean flags is parsed by
lower-casing the environment value (its getenv default when unset) and
comparing to the literal "true"; when the variable is unset, monitoring
and ipv6 default to false while private networking and wait-for-active
default to true. -/
theorem deployConfig_bool_flags (env : String → Option String) :
    ((deployConfig env).monitoring =
      (pyLower (getenvD env ("MONITORING") ("false")) == "true")) ∧
    ((deployConfig env).ipv6 =
      (pyLower (getenvD env ("IPV6") ("false")) == "true")) ∧
    ((deployConfig env).private_networking =
      (pyLower (getenvD env ("PRIVATE_NETWORKING") ("true")) == "true")) ∧
    ((deployConfig env).wait_for_active =
      (pyLower (getenvD env ("WAIT_FOR_ACTIVE") ("true")) == "true")) ∧
    (env ("MONITORING") = none → (deployConfig env).monitoring = false) ∧
    (env ("IPV6") = none → (deployConfig env).ipv6 = false) ∧
    (env ("PRIVATE_NETWORKING") = none →
      (deployConfig env).private_networking = true) ∧
    (env ("WAIT_FOR_ACTIVE") = none →
      (deployConfig env).wait_for_active = true) := by
  refine ⟨rfl, rfl, rfl, rfl, ?_, ?_, ?_, ?_⟩ <;>
    intro h <;> simp [deployConfig, getenvD, h] <;> decide

theorem deployConfig_bool_flags_witness :
    (deployConfig (fun _ => none)).monitoring = false ∧
    (deployConfig (fun _ => none)).wait_for_active = true :=
  ⟨(deployConfig_bool_flags (fun _ => none)).2.2.2.2.1 rfl,
   (deployConfig_bool_flags (fun _ => none)).2.2.2.2.2.2.2 rfl⟩

end GPUDroplet
